import Mathlib

/-!
Verification development for the fabazon deployment helpers.

The development shallowly embeds the behaviourally interesting parts of the
repository:

* `roles.py` — `EC2RoleDefs`, a dictionary subclass that lazily resolves a
  role name to a list of host identifiers via a tag query, caching the result.
  Python dictionaries are embedded as association lists (`dictGet`,
  `dictInsert`, `dictUpdate` mirror `d[k]`, `d[k] = v` and `d.update(e)`).
  The boto3-backed tag queries (`get_tagged_hostnames`,
  `get_tagged_instance_ids`) are network calls, so they are modelled as
  oracle functions carried by the `EC2TagManager` record; `getItem` returns,
  together with its result and the updated state, the list of oracle queries
  it issued so that query counts can be stated.

* `ec2.py` — `get_current_instance_id`, which parses the output of a remote
  metadata command.  The remote command output is the function's input; the
  result distinguishes a parsed id, a logged-error/`None` return, and a
  raised `IndexError` from `s.split(' ')[1]`.

* `elb.py` — `LoadBalancerV2` health queries (`_get_instance_health_info`
  with its two assertions, `is_instance_registered`, `is_instance_healthy`;
  assertion failures become `Except.error`) and the `BaseLoadBalancer`
  polling loops (`wait_until_instance_healthy`, `wait_until_instance_removed`),
  embedded as a fuel-indexed loop over an abstract per-poll observation
  sequence `Nat → Bool`.  `WaitOutcome` records the returned boolean, the
  number of polls performed, and whether the timeout warning was printed.
-/

/-! ### Python dictionaries as association lists -/

/-- Python `d[k]` on a dict: the value at the first entry with key `k`,
or `none` when the key is absent (a `KeyError` at call sites). -/
def dictGet {α : Type} (d : List (String × α)) (k : String) : Option α :=
  match d with
  | [] => none
  | (k', v) :: rest => if k' = k then some v else dictGet rest k

/-- Python `d[k] = v` on a dict: replace the value at an existing key in
place, otherwise append the new entry. -/
def dictInsert {α : Type} (d : List (String × α)) (k : String) (v : α) :
    List (String × α) :=
  match d with
  | [] => [(k, v)]
  | (k', v') :: rest =>
      if k' = k then (k, v) :: rest else (k', v') :: dictInsert rest k v

/-- Python `d.update(e)` on dicts: insert every entry of `e` into `d`,
in order, overwriting existing keys. -/
def dictUpdate {α : Type} (d e : List (String × α)) : List (String × α) :=
  e.foldl (fun a p => dictInsert a p.1 p.2) d

/-! ### roles.py / ec2.py: the role resolver and its tag-query collaborator -/

/-- A map from tag key to required tag value, as passed to the tag queries. -/
abbrev TagMap := List (String × String)

/-- The tag manager of `ec2.py`.  Its two query methods wrap boto3 network
calls, so they are modelled as oracle functions from the tag filter to the
returned sequence of identifiers; `regions` is carried for construction
fidelity but the per-region fan-out lives inside the oracles. -/
structure EC2TagManager where
  regions : List String
  get_tagged_hostnames : TagMap → List String
  get_tagged_instance_ids : TagMap → List String

/-- One underlying tag query issued by the role resolver: which collaborator
method was called (`ssm = true` for instance ids) and with which filter. -/
structure QueryCall where
  ssm : Bool
  tags : TagMap
deriving DecidableEq, Repr

/-- The state of an `EC2RoleDefs` object: the dictionary contents (role name
to `none` for the unresolved sentinel or `some hosts` once resolved) and the
constructor-provided configuration. -/
structure EC2RoleDefs where
  store : List (String × Option (List String))
  role_tag : String
  require_tags : TagMap
  use_ssm : Bool

/-- Embeds `EC2RoleDefs.__init__`: pre-populate the dictionary, mapping every role
in `roles` to `None` (the unresolved sentinel). -/
def EC2RoleDefs.init (roles : List String) (role_tag : String)
    (require_tags : TagMap) (use_ssm : Bool) : EC2RoleDefs :=
  { store := roles.foldl (fun d r => dictInsert d r none) []
    role_tag := role_tag
    require_tags := require_tags
    use_ssm := use_ssm }

/-- Embeds `EC2RoleDefs.__getitem__`.  Returns the Python return value
(`Except.error ()` is the `KeyError` raised by `super().__getitem__` for an
unseeded role), the updated dictionary state, and the list of underlying tag
queries issued during the call. -/
def EC2RoleDefs.getItem (s : EC2RoleDefs) (m : EC2TagManager) (role : String) :
    Except Unit (List String) × EC2RoleDefs × List QueryCall :=
  match dictGet s.store role with
  | none => (.error (), s, [])
  | some (some cached) => (.ok cached, s, [])
  | some none =>
      let tags := dictUpdate [(s.role_tag, role)] s.require_tags
      let result := if s.use_ssm then m.get_tagged_instance_ids tags
                    else m.get_tagged_hostnames tags
      (.ok result, { s with store := dictInsert s.store role (some result) },
       [⟨s.use_ssm, tags⟩])

/-! ### ec2.py: get_current_instance_id

Python's `str.strip`, `str.startswith` and `str.split(' ')` are embedded as
structurally recursive functions on `List Char`, so that theorems about them
can be evaluated at concrete inputs. -/

/-- The whitespace characters stripped by Python's `str.strip()`. -/
def pyIsSpace (c : Char) : Bool :=
  c == ' ' || c == '\t' || c == '\n' || c == '\r' || c == '\x0b' || c == '\x0c'

/-- Python `s.strip()`: drop leading and trailing whitespace. -/
def pyStrip (s : List Char) : List Char :=
  ((s.dropWhile pyIsSpace).reverse.dropWhile pyIsSpace).reverse

/-- Python `s.startswith(p)`: `p` is a prefix of `s`. -/
def pyStartsWith (s p : List Char) : Bool :=
  p.isPrefixOf s

/-- Python `s.split(' ')`: split at every single space, keeping empty
pieces; `''.split(' ') == ['']`. -/
def pySplitSpace : List Char → List (List Char)
  | [] => [[]]
  | c :: rest =>
      if c == ' ' then [] :: pySplitSpace rest
      else
        match pySplitSpace rest with
        | t :: ts => (c :: t) :: ts
        | [] => [[c]]

/-- Outcome of `get_current_instance_id` on a given remote command output:
a parsed id, the logged-error path returning `None`, or the `IndexError`
raised by `s.split(' ')[1]` when no second token exists. -/
inductive InstanceIdResult where
  | ok (instanceId : String)
  | errLogged
  | indexError
deriving DecidableEq, Repr

/-- Embeds `get_current_instance_id`, as a function of the output of the remote
`ec2-metadata -i` command: strip the output, print an error and return
`None` unless it starts with `"instance-id"`, otherwise return
`s.split(' ')[1]` (which raises `IndexError` when absent). -/
def get_current_instance_id (output : String) : InstanceIdResult :=
  let s := pyStrip output.toList
  if pyStartsWith s "instance-id".toList then
    match (pySplitSpace s).get? 1 with
    | some tok => .ok (String.mk tok)
    | none => .indexError
  else
    .errLogged

/-- The spec's notion of an output "of the form `instance-id <id>`":
exactly two space-separated tokens, the first being `instance-id` and the
second nonempty.  Used only to state the refutation of the spec's claim. -/
def isInstanceIdOutputForm (s : String) : Bool :=
  match pySplitSpace s.toList with
  | [a, b] => a == "instance-id".toList && !b.isEmpty
  | _ => false

/-! ### elb.py: LoadBalancerV2 health queries -/

/-- The `TargetHealth` mapping of a describe-target-health record: the
`State` string and the optional `Reason` string (read with `.get`). -/
structure TargetHealth where
  state : String
  reason : Option String
deriving DecidableEq, Repr

/-- One entry of `TargetHealthDescriptions`: the target's `Id` together with
its `TargetHealth`. -/
structure TargetHealthDescription where
  targetId : String
  health : TargetHealth
deriving DecidableEq, Repr

namespace LoadBalancerV2

/-- Embeds `LoadBalancerV2._get_instance_health_info`, as a function of the
`TargetHealthDescriptions` list returned by the health collaborator:
assert that it has exactly one entry and that the entry's target id is the
instance's id, then return the entry's `TargetHealth`.  A failed assertion
is `Except.error ()` (Python's `AssertionError`). -/
def _get_instance_health_info (instance_id : String)
    (rsp : List TargetHealthDescription) : Except Unit TargetHealth :=
  match rsp with
  | [d] => if d.targetId = instance_id then .ok d.health else .error ()
  | _ => .error ()

/-- Embeds `LoadBalancerV2.is_instance_registered`: registered unless the health
reason is exactly `"Target.NotRegistered"`; assertion errors propagate. -/
def is_instance_registered (instance_id : String)
    (rsp : List TargetHealthDescription) : Except Unit Bool :=
  (_get_instance_health_info instance_id rsp).map
    (fun h => !(h.reason == some "Target.NotRegistered"))

/-- Embeds `LoadBalancerV2.is_instance_healthy`: healthy iff the health state is
exactly `"healthy"`; assertion errors propagate. -/
def is_instance_healthy (instance_id : String)
    (rsp : List TargetHealthDescription) : Except Unit Bool :=
  (_get_instance_health_info instance_id rsp).map
    (fun h => h.state == "healthy")

end LoadBalancerV2

/-! ### elb.py: BaseLoadBalancer polling loops -/

/-- The observable outcome of a wait loop: the boolean return value, the
number of polls (underlying health checks) performed, and whether the red
timeout warning was printed. -/
structure WaitOutcome where
  result : Bool
  polls : Nat
  warned : Bool
deriving DecidableEq, Repr

/-- The `for i in range(fuel)` polling loop shared by both wait methods:
poll `check` once per iteration starting at index `i`; return `true` at the
first successful poll, or `false` with a printed warning once the budget is
exhausted.  `polls` counts every check performed from index `0`. -/
def pollLoop (check : Nat → Bool) : Nat → Nat → WaitOutcome
  | i, 0 => ⟨false, i, true⟩
  | i, fuel + 1 =>
      if check i then ⟨true, i + 1, false⟩ else pollLoop check (i + 1) fuel

/-- Embeds `BaseLoadBalancer.wait_until_instance_healthy`: poll
`is_instance_healthy` up to 60 times.  `is_healthy i` is the abstract
boolean observation of the `i`-th poll (poll indices start at 0). -/
def wait_until_instance_healthy (is_healthy : Nat → Bool) : WaitOutcome :=
  pollLoop is_healthy 0 60

/-- Embeds `BaseLoadBalancer.wait_until_instance_removed`: poll
`is_instance_registered` up to 60 times, succeeding at the first poll where
it is `false`. -/
def wait_until_instance_removed (is_registered : Nat → Bool) : WaitOutcome :=
  pollLoop (fun i => !(is_registered i)) 0 60

/-! ### Concrete collaborators for evaluating the theorems -/

/-- A concrete tag-query collaborator: one region, every filter resolving to
one hostname and one instance id. -/
def demoManager : EC2TagManager :=
  { regions := ["us-east-1"]
    get_tagged_hostnames := fun _ => ["web-1.example.com"]
    get_tagged_instance_ids := fun _ => ["i-0abc123"] }

/-- A concrete tag-query collaborator whose every query matches no
instances. -/
def demoEmptyManager : EC2TagManager :=
  { regions := ["us-east-1"]
    get_tagged_hostnames := fun _ => []
    get_tagged_instance_ids := fun _ => [] }

/-! ### Helper lemmas on the dictionary embedding -/

theorem dictGet_insert_self {α : Type} (d : List (String × α)) (k : String)
    (v : α) : dictGet (dictInsert d k v) k = some v := by
  induction d with
  | nil => simp [dictInsert, dictGet]
  | cons p rest ih =>
      obtain ⟨k', v'⟩ := p
      by_cases h : k' = k
      · simp [dictInsert, dictGet, h]
      · simp [dictInsert, dictGet, h, ih]

theorem dictGet_insert_ne {α : Type} (d : List (String × α)) (k k' : String)
    (v : α) (h : k' ≠ k) : dictGet (dictInsert d k v) k' = dictGet d k' := by
  induction d with
  | nil => simp [dictInsert, dictGet, Ne.symm h]
  | cons p rest ih =>
      obtain ⟨k₀, v₀⟩ := p
      by_cases h₀ : k₀ = k
      · subst h₀
        simp [dictInsert, dictGet, Ne.symm h]
      · simp only [dictInsert, if_neg h₀]
        by_cases h₁ : k₀ = k'
        · simp [dictGet, h₁]
        · simp [dictGet, h₁, ih]

theorem dictGet_seed_not_mem {α : Type} (roles : List String)
    (d : List (String × Option α)) (role : String) (h : role ∉ roles) :
    dictGet (roles.foldl (fun a r => dictInsert a r none) d) role =
      dictGet d role := by
  induction roles generalizing d with
  | nil => rfl
  | cons r rest ih =>
      simp only [List.mem_cons, not_or] at h
      simp only [List.foldl_cons]
      rw [ih _ h.2, dictGet_insert_ne _ _ _ _ h.1]

theorem dictGet_seed_mem {α : Type} (roles : List String)
    (d : List (String × Option α)) (role : String) (h : role ∈ roles) :
    dictGet (roles.foldl (fun a r => dictInsert a r none) d) role =
      some none := by
  induction roles generalizing d with
  | nil => cases h
  | cons r rest ih =>
      simp only [List.foldl_cons]
      by_cases hr : role ∈ rest
      · exact ih _ hr
      · have hrole : role = r := by
          rcases List.mem_cons.mp h with h' | h'
          · exact h'
          · exact absurd h' hr
        subst hrole
        rw [dictGet_seed_not_mem _ _ _ hr, dictGet_insert_self]

theorem dictUpdate_cons {α : Type} (d : List (String × α)) (p : String × α)
    (e : List (String × α)) :
    dictUpdate d (p :: e) = dictUpdate (dictInsert d p.1 p.2) e := rfl

theorem dictGet_update_not_mem_keys {α : Type} (e d : List (String × α))
    (k : String) (h : k ∉ e.map Prod.fst) :
    dictGet (dictUpdate d e) k = dictGet d k := by
  induction e generalizing d with
  | nil => rfl
  | cons p rest ih =>
      simp only [List.map_cons, List.mem_cons, not_or] at h
      rw [dictUpdate_cons, ih _ h.2, dictGet_insert_ne _ _ _ _ h.1]

theorem dictGet_update_mem_nodup {α : Type} (e d : List (String × α))
    (k : String) (v : α) (hmem : (k, v) ∈ e)
    (hnodup : (e.map Prod.fst).Nodup) :
    dictGet (dictUpdate d e) k = some v := by
  induction e generalizing d with
  | nil => cases hmem
  | cons p rest ih =>
      simp only [List.map_cons, List.nodup_cons] at hnodup
      rw [dictUpdate_cons]
      rcases List.mem_cons.mp hmem with h' | h'
      · subst h'
        have hk : k ∉ rest.map Prod.fst := hnodup.1
        rw [dictGet_update_not_mem_keys _ _ _ hk, dictGet_insert_self]
      · exact ih _ h' hnodup.2

/-! ### Helper lemmas on the polling loop -/

theorem pollLoop_const_false (check : Nat → Bool)
    (h : ∀ j, check j = false) (i fuel : Nat) :
    pollLoop check i fuel = ⟨false, i + fuel, true⟩ := by
  induction fuel generalizing i with
  | zero => rfl
  | succ n ih =>
      simp only [pollLoop, h i, Bool.false_eq_true, if_false]
      rw [ih (i + 1)]
      congr 1
      omega

theorem pollLoop_first_true (check : Nat → Bool) (i fuel m : Nat)
    (hm : m < fuel) (hbefore : ∀ j, j < m → check (i + j) = false)
    (hit : check (i + m) = true) :
    pollLoop check i fuel = ⟨true, i + m + 1, false⟩ := by
  induction m generalizing i fuel with
  | zero =>
      obtain ⟨n, rfl⟩ : ∃ n, fuel = n + 1 := ⟨fuel - 1, by omega⟩
      simp only [Nat.add_zero] at hit
      simp [pollLoop, hit]
  | succ m ih =>
      obtain ⟨n, rfl⟩ : ∃ n, fuel = n + 1 := ⟨fuel - 1, by omega⟩
      have h0 : check i = false := by simpa using hbefore 0 (Nat.succ_pos m)
      simp only [pollLoop, h0, Bool.false_eq_true, if_false]
      have := ih (i + 1) n (by omega)
        (fun j hj => by
          have := hbefore (j + 1) (by omega)
          simpa [Nat.add_assoc, Nat.add_comm 1 j] using this)
        (by
          have : i + 1 + m = i + (m + 1) := by omega
          rw [this]
          exact hit)
      rw [this]
      congr 1
      omega

/-! ### Helper lemmas on the role resolver -/

theorem getItem_of_absent (s : EC2RoleDefs) (m : EC2TagManager) (role : String)
    (h : dictGet s.store role = none) :
    s.getItem m role = (.error (), s, []) := by
  unfold EC2RoleDefs.getItem
  rw [h]

theorem getItem_of_resolved (s : EC2RoleDefs) (m : EC2TagManager)
    (role : String) (hosts : List String)
    (h : dictGet s.store role = some (some hosts)) :
    s.getItem m role = (.ok hosts, s, []) := by
  unfold EC2RoleDefs.getItem
  rw [h]

theorem getItem_of_unresolved (s : EC2RoleDefs) (m : EC2TagManager)
    (role : String) (result : List String)
    (h : dictGet s.store role = some none)
    (hresult : result =
      if s.use_ssm then
        m.get_tagged_instance_ids (dictUpdate [(s.role_tag, role)] s.require_tags)
      else
        m.get_tagged_hostnames (dictUpdate [(s.role_tag, role)] s.require_tags)) :
    s.getItem m role =
      (.ok result, { s with store := dictInsert s.store role (some result) },
       [⟨s.use_ssm, dictUpdate [(s.role_tag, role)] s.require_tags⟩]) := by
  subst hresult
  unfold EC2RoleDefs.getItem
  rw [h]

/-! ### Claims about the role resolver (roles.py) -/

/-- C1: For every role name pre-seeded at construction, the first lookup
issues exactly one underlying tag query, whose filter is `{role_tag: role}`
updated with `require_tags` (the union built by `__getitem__`), and caches
and returns its result; the lookup from the resulting state — and hence
every subsequent lookup, that state being returned unchanged — issues zero
further queries and returns the identical cached sequence. -/
theorem EC2RoleDefs_memoization_law (m : EC2TagManager) (roles : List String)
    (role_tag : String) (require_tags : TagMap) (use_ssm : Bool)
    (role : String) (hrole : role ∈ roles) :
    ∃ hosts s1,
      (EC2RoleDefs.init roles role_tag require_tags use_ssm).getItem m role =
        (.ok hosts, s1,
         [⟨use_ssm, dictUpdate [(role_tag, role)] require_tags⟩]) ∧
      s1.getItem m role = (.ok hosts, s1, []) := by
  have h0 : dictGet
      (EC2RoleDefs.init roles role_tag require_tags use_ssm).store role =
      some none :=
    dictGet_seed_mem roles [] role hrole
  refine ⟨_, _, getItem_of_unresolved _ m role _ h0 rfl, ?_⟩
  exact getItem_of_resolved _ m role _ (dictGet_insert_self _ role _)

/-- C1 witness: a concrete pre-seeded role `"web"`, resolved against
`demoManager` with one required tag; the first lookup issues the single
query with the combined filter, the second is served from the cache. -/
theorem EC2RoleDefs_memoization_law_witness :
    ("web" ∈ ["web"]) ∧
    ∃ hosts s1,
      (EC2RoleDefs.init ["web"] "role" [("env", "prod")] false).getItem
          demoManager "web" =
        (.ok hosts, s1,
         [⟨false, dictUpdate [("role", "web")] [("env", "prod")]⟩]) ∧
      s1.getItem demoManager "web" = (.ok hosts, s1, []) :=
  ⟨by decide,
   EC2RoleDefs_memoization_law demoManager ["web"] "role" [("env", "prod")]
     false "web" (by decide)⟩

/-- C2: when the underlying tag query for a pre-seeded role returns the
empty sequence, that empty sequence is cached as a resolved entry
(`some (some [])`, distinct from the unresolved sentinel `some none`), and
the lookup from the resulting state issues zero queries and returns the
empty sequence. -/
theorem EC2RoleDefs_empty_result_cached (m : EC2TagManager)
    (roles : List String) (role_tag : String) (require_tags : TagMap)
    (use_ssm : Bool) (role : String) (hrole : role ∈ roles)
    (hempty :
      (if use_ssm then
        m.get_tagged_instance_ids (dictUpdate [(role_tag, role)] require_tags)
      else
        m.get_tagged_hostnames (dictUpdate [(role_tag, role)] require_tags))
      = []) :
    ∃ s1,
      (EC2RoleDefs.init roles role_tag require_tags use_ssm).getItem m role =
        (.ok [], s1,
         [⟨use_ssm, dictUpdate [(role_tag, role)] require_tags⟩]) ∧
      dictGet s1.store role = some (some []) ∧
      dictGet s1.store role ≠ some none ∧
      s1.getItem m role = (.ok [], s1, []) := by
  have h0 : dictGet
      (EC2RoleDefs.init roles role_tag require_tags use_ssm).store role =
      some none :=
    dictGet_seed_mem roles [] role hrole
  have hcache := dictGet_insert_self
    (EC2RoleDefs.init roles role_tag require_tags use_ssm).store role
    (some ([] : List String))
  refine ⟨_, getItem_of_unresolved _ m role [] h0 hempty.symm, hcache, ?_, ?_⟩
  · rw [hcache]
    simp
  · exact getItem_of_resolved _ m role [] hcache

/-- C2 witness: role `"web"` against the collaborator whose queries all
return no instances; the empty result is cached as resolved and the second
lookup re-issues no query. -/
theorem EC2RoleDefs_empty_result_cached_witness :
    ("web" ∈ ["web"]) ∧
    (demoEmptyManager.get_tagged_hostnames
      (dictUpdate [("role", "web")] [("env", "prod")]) = []) ∧
    ∃ s1,
      (EC2RoleDefs.init ["web"] "role" [("env", "prod")] false).getItem
          demoEmptyManager "web" =
        (.ok [], s1, [⟨false, dictUpdate [("role", "web")] [("env", "prod")]⟩]) ∧
      dictGet s1.store "web" = some (some []) ∧
      dictGet s1.store "web" ≠ some none ∧
      s1.getItem demoEmptyManager "web" = (.ok [], s1, []) :=
  ⟨by decide, rfl,
   EC2RoleDefs_empty_result_cached demoEmptyManager ["web"] "role"
     [("env", "prod")] false "web" (by decide) rfl⟩

/-- C3: looking up a role name that was not pre-seeded at construction
raises `KeyError` (the `Except.error` of `super().__getitem__`), leaves the
dictionary unchanged, and issues zero underlying queries. -/
theorem EC2RoleDefs_unknown_role_keyerror (m : EC2TagManager)
    (roles : List String) (role_tag : String) (require_tags : TagMap)
    (use_ssm : Bool) (role : String) (hrole : role ∉ roles) :
    (EC2RoleDefs.init roles role_tag require_tags use_ssm).getItem m role =
      (.error (), EC2RoleDefs.init roles role_tag require_tags use_ssm, []) := by
  exact getItem_of_absent _ m role (dictGet_seed_not_mem roles [] role hrole)

/-- C3 witness: looking up the unseeded role `"db"` on a resolver seeded
only with `"web"` raises the key-not-found error with no query issued. -/
theorem EC2RoleDefs_unknown_role_keyerror_witness :
    ("db" ∉ ["web"]) ∧
    (EC2RoleDefs.init ["web"] "role" [] false).getItem demoManager "db" =
      (.error (), EC2RoleDefs.init ["web"] "role" [] false, []) :=
  ⟨by decide,
   EC2RoleDefs_unknown_role_keyerror demoManager ["web"] "role" [] false "db"
     (by decide)⟩

/-- C8: with `use_ssm` set at construction, the first lookup of a
pre-seeded role delegates to the collaborator's instance-id query (not the
hostname query) with the combined tag filter, returns the sequence of
instance identifiers, and caches it as a resolved entry; the lookup from
the resulting state is served from the cache with zero queries. -/
theorem EC2RoleDefs_use_ssm_instance_ids (m : EC2TagManager)
    (roles : List String) (role_tag : String) (require_tags : TagMap)
    (role : String) (hrole : role ∈ roles) :
    ∃ s1,
      (EC2RoleDefs.init roles role_tag require_tags true).getItem m role =
        (.ok (m.get_tagged_instance_ids
                (dictUpdate [(role_tag, role)] require_tags)),
         s1, [⟨true, dictUpdate [(role_tag, role)] require_tags⟩]) ∧
      dictGet s1.store role =
        some (some (m.get_tagged_instance_ids
          (dictUpdate [(role_tag, role)] require_tags))) ∧
      s1.getItem m role =
        (.ok (m.get_tagged_instance_ids
                (dictUpdate [(role_tag, role)] require_tags)),
         s1, []) := by
  have h0 : dictGet
      (EC2RoleDefs.init roles role_tag require_tags true).store role =
      some none :=
    dictGet_seed_mem roles [] role hrole
  have hcache := dictGet_insert_self
    (EC2RoleDefs.init roles role_tag require_tags true).store role
    (some (m.get_tagged_instance_ids
      (dictUpdate [(role_tag, role)] require_tags)))
  exact ⟨_, getItem_of_unresolved _ m role _ h0 rfl, hcache,
    getItem_of_resolved _ m role _ hcache⟩

/-- C8 witness: role `"web"` on an ssm-enabled resolver against
`demoManager`; the lookup returns `demoManager`'s instance-id result for
the combined filter and caches it. -/
theorem EC2RoleDefs_use_ssm_instance_ids_witness :
    ("web" ∈ ["web"]) ∧
    ∃ s1,
      (EC2RoleDefs.init ["web"] "role" [("env", "prod")] true).getItem
          demoManager "web" =
        (.ok (demoManager.get_tagged_instance_ids
                (dictUpdate [("role", "web")] [("env", "prod")])),
         s1, [⟨true, dictUpdate [("role", "web")] [("env", "prod")]⟩]) ∧
      dictGet s1.store "web" =
        some (some (demoManager.get_tagged_instance_ids
          (dictUpdate [("role", "web")] [("env", "prod")]))) ∧
      s1.getItem demoManager "web" =
        (.ok (demoManager.get_tagged_instance_ids
                (dictUpdate [("role", "web")] [("env", "prod")])),
         s1, []) :=
  ⟨by decide,
   EC2RoleDefs_use_ssm_instance_ids demoManager ["web"] "role"
     [("env", "prod")] "web" (by decide)⟩

/-- C10: when the required-tags mapping contains the role tag key itself,
the filter built by a lookup (seed `{role_tag: role}`, then update with
`require_tags`) maps `role_tag` to the required-tags value `v`, not to the
requested role name; the single query of a first lookup is issued with
exactly that filter. -/
theorem EC2RoleDefs_require_tags_override_role_tag (m : EC2TagManager)
    (roles : List String) (role_tag : String) (require_tags : TagMap)
    (use_ssm : Bool) (role v : String) (hrole : role ∈ roles)
    (hmem : (role_tag, v) ∈ require_tags)
    (hnodup : (require_tags.map Prod.fst).Nodup) :
    dictGet (dictUpdate [(role_tag, role)] require_tags) role_tag = some v ∧
    ∃ hosts s1,
      (EC2RoleDefs.init roles role_tag require_tags use_ssm).getItem m role =
        (.ok hosts, s1,
         [⟨use_ssm, dictUpdate [(role_tag, role)] require_tags⟩]) := by
  have h0 : dictGet
      (EC2RoleDefs.init roles role_tag require_tags use_ssm).store role =
      some none :=
    dictGet_seed_mem roles [] role hrole
  exact ⟨dictGet_update_mem_nodup require_tags [(role_tag, role)] role_tag v
    hmem hnodup, _, _, getItem_of_unresolved _ m role _ h0 rfl⟩

/-- C10 witness: `require_tags = [("role", "db")]` with `role_tag = "role"`;
looking up role `"web"` issues a query whose filter maps `"role"` to
`"db"`. -/
theorem EC2RoleDefs_require_tags_override_role_tag_witness :
    ("web" ∈ ["web"]) ∧ (("role", "db") ∈ [("role", "db")]) ∧
    ((([("role", "db")] : TagMap).map Prod.fst).Nodup) ∧
    (dictGet (dictUpdate [("role", "web")] [("role", "db")]) "role" =
      some "db" ∧
    ∃ hosts s1,
      (EC2RoleDefs.init ["web"] "role" [("role", "db")] false).getItem
          demoManager "web" =
        (.ok hosts, s1,
         [⟨false, dictUpdate [("role", "web")] [("role", "db")]⟩])) :=
  ⟨by decide, by decide, by decide,
   EC2RoleDefs_require_tags_override_role_tag demoManager ["web"] "role"
     [("role", "db")] false "web" "db" (by decide) (by decide) (by decide)⟩

/-! ### Claims about the load balancer (elb.py) -/

/-- C4: the health-information fetch backing both `is_instance_registered`
and `is_instance_healthy` succeeds exactly when the collaborator returns
one single target record whose identifier equals the queried instance's
identifier; on zero records, several records, or a mismatched identifier it
fails with the assertion error, which both query methods propagate rather
than recover from. -/
theorem LoadBalancerV2_health_info_exactly_one (instance_id : String)
    (rsp : List TargetHealthDescription) :
    ((∃ h, LoadBalancerV2._get_instance_health_info instance_id rsp = .ok h)
        ↔ ∃ d, rsp = [d] ∧ d.targetId = instance_id) ∧
    ((¬ ∃ d, rsp = [d] ∧ d.targetId = instance_id) →
      LoadBalancerV2._get_instance_health_info instance_id rsp = .error () ∧
      LoadBalancerV2.is_instance_registered instance_id rsp = .error () ∧
      LoadBalancerV2.is_instance_healthy instance_id rsp = .error ()) := by
  unfold LoadBalancerV2.is_instance_registered
    LoadBalancerV2.is_instance_healthy
  rcases rsp with _ | ⟨d, _ | ⟨e, rest⟩⟩
  · simp [LoadBalancerV2._get_instance_health_info, Except.map]
  · by_cases hd : d.targetId = instance_id
    · simp [LoadBalancerV2._get_instance_health_info, hd, Except.map]
    · simp [LoadBalancerV2._get_instance_health_info, hd, Except.map]
  · simp [LoadBalancerV2._get_instance_health_info, Except.map]

/-- C4 witness: an empty `TargetHealthDescriptions` response for instance
`"i-1"` makes both query methods fail with the assertion error. -/
theorem LoadBalancerV2_health_info_exactly_one_witness :
    LoadBalancerV2._get_instance_health_info "i-1" [] = .error () ∧
    LoadBalancerV2.is_instance_registered "i-1" [] = .error () ∧
    LoadBalancerV2.is_instance_healthy "i-1" [] = .error () :=
  (LoadBalancerV2_health_info_exactly_one "i-1" []).2 (by simp)

/-- C5: when every poll observes not-healthy, `wait_until_instance_healthy`
performs exactly 60 polls, returns `false` and prints the warning (the
embedding returns a value rather than raising); symmetrically,
`wait_until_instance_removed` when every poll observes the instance still
registered. -/
theorem wait_loops_timeout_after_60_polls (is_healthy is_registered : Nat → Bool)
    (hh : ∀ i, is_healthy i = false) (hr : ∀ i, is_registered i = true) :
    wait_until_instance_healthy is_healthy = ⟨false, 60, true⟩ ∧
    wait_until_instance_removed is_registered = ⟨false, 60, true⟩ := by
  refine ⟨pollLoop_const_false is_healthy hh 0 60, ?_⟩
  exact pollLoop_const_false (fun i => !(is_registered i))
    (fun i => by simp [hr i]) 0 60

/-- C5 witness: constant not-healthy and constant registered observation
sequences exhaust the 60-poll budget and return `false` with the warning. -/
theorem wait_loops_timeout_after_60_polls_witness :
    wait_until_instance_healthy (fun _ => false) = ⟨false, 60, true⟩ ∧
    wait_until_instance_removed (fun _ => true) = ⟨false, 60, true⟩ :=
  wait_loops_timeout_after_60_polls (fun _ => false) (fun _ => true)
    (fun _ => rfl) (fun _ => rfl)

/-- C6: `wait_until_instance_healthy` returns `true` at the first poll
observing healthy, having performed exactly `k + 1` polls when the first
healthy observation is poll index `k < 60` (so polls 1 through 59
not-healthy and poll 60 healthy give `true` after exactly 60 polls). -/
theorem wait_until_healthy_first_success (is_healthy : Nat → Bool) (k : Nat)
    (hk : k < 60) (hbefore : ∀ j, j < k → is_healthy j = false)
    (hit : is_healthy k = true) :
    wait_until_instance_healthy is_healthy = ⟨true, k + 1, false⟩ := by
  have h := pollLoop_first_true is_healthy 0 60 k hk
    (fun j hj => by simpa using hbefore j hj) (by simpa using hit)
  simpa using h

/-- C6 witness: not-healthy on polls 0–58 and healthy on poll 59
(0-indexed; polls 1–59 and 60 of the spec) yield `true` after exactly 60
polls and no warning. -/
theorem wait_until_healthy_first_success_witness :
    (59 < 60) ∧ (decide ((59 : Nat) = 59) = true) ∧
    wait_until_instance_healthy (fun i => decide (i = 59)) =
      ⟨true, 60, false⟩ :=
  ⟨by decide, by decide,
   wait_until_healthy_first_success (fun i => decide (i = 59)) 59 (by decide)
     (fun j hj => decide_eq_false (by omega)) (by decide)⟩

/-- C7: for a well-formed single-record response for the queried instance,
`is_instance_registered` returns `false` exactly when the health `Reason`
is present and equals `"Target.NotRegistered"`, and returns `true` for
every other reason (any other string, the empty string, or an absent
reason). -/
theorem LoadBalancerV2_is_registered_iff_reason (instance_id st : String)
    (r : Option String) :
    (LoadBalancerV2.is_instance_registered instance_id
        [⟨instance_id, ⟨st, r⟩⟩] = .ok false
      ↔ r = some "Target.NotRegistered") ∧
    (LoadBalancerV2.is_instance_registered instance_id
        [⟨instance_id, ⟨st, r⟩⟩] = .ok true
      ↔ r ≠ some "Target.NotRegistered") := by
  unfold LoadBalancerV2.is_instance_registered
    LoadBalancerV2._get_instance_health_info
  simp [Except.map]

/-- C7 witness: the reason `"Target.NotRegistered"` yields `.ok false`,
the empty-string reason yields `.ok true`. -/
theorem LoadBalancerV2_is_registered_iff_reason_witness :
    LoadBalancerV2.is_instance_registered "i-1"
      [⟨"i-1", ⟨"unhealthy", some "Target.NotRegistered"⟩⟩] = .ok false ∧
    LoadBalancerV2.is_instance_registered "i-1"
      [⟨"i-1", ⟨"unhealthy", some ""⟩⟩] = .ok true :=
  ⟨(LoadBalancerV2_is_registered_iff_reason "i-1" "unhealthy"
      (some "Target.NotRegistered")).1.mpr rfl,
   (LoadBalancerV2_is_registered_iff_reason "i-1" "unhealthy"
      (some "")).2.mpr (by decide)⟩

/-! ### Claim about get_current_instance_id (ec2.py) -/

/-- C9 counterexample: the code only checks that the stripped output starts
with the prefix `"instance-id"` and then takes `split(' ')[1]`.  The output
`"instance-identity foo"` is not of the form `instance-id <id>` yet yields
the identity `"foo"` instead of a logged error and `None`; the output
`"instance-id"` (no id token) is not of that form either yet raises
`IndexError` instead of returning `None`. -/
theorem get_current_instance_id_counterexample :
    (isInstanceIdOutputForm "instance-identity foo" = false ∧
      get_current_instance_id "instance-identity foo" = .ok "foo") ∧
    (isInstanceIdOutputForm "instance-id" = false ∧
      get_current_instance_id "instance-id" = .indexError) :=
  ⟨⟨by decide, by decide⟩, ⟨by decide, by decide⟩⟩

/-- C9 amended: if the stripped command output does not start with the
prefix `"instance-id"`, the resolver logs a visible error and returns an
absent identity (`None`) without raising; if the stripped output starts
with that prefix (even when its first token is longer than
`"instance-id"`), the resolver returns the second space-separated token of
the stripped output when one exists, and raises `IndexError` when no
second token exists. -/
theorem get_current_instance_id_amended (output : String) :
    (pyStartsWith (pyStrip output.toList) "instance-id".toList = false →
      get_current_instance_id output = .errLogged) ∧
    (∀ tok, pyStartsWith (pyStrip output.toList) "instance-id".toList = true →
      (pySplitSpace (pyStrip output.toList)).get? 1 = some tok →
      get_current_instance_id output = .ok (String.mk tok)) ∧
    (pyStartsWith (pyStrip output.toList) "instance-id".toList = true →
      (pySplitSpace (pyStrip output.toList)).get? 1 = none →
      get_current_instance_id output = .indexError) := by
  refine ⟨fun h => ?_, fun tok h htok => ?_, fun h htok => ?_⟩
  · simp only [get_current_instance_id]
    rw [h]
    rfl
  · simp only [get_current_instance_id]
    rw [h, htok]
    rfl
  · simp only [get_current_instance_id]
    rw [h, htok]
    rfl

/-- C9 amended witness: the well-formed output `"instance-id i-0123"`
starts with the prefix, has `"i-0123"` as its second token, and resolves to
the identity `"i-0123"`. -/
theorem get_current_instance_id_amended_witness :
    (pyStartsWith (pyStrip "instance-id i-0123".toList)
      "instance-id".toList = true) ∧
    ((pySplitSpace (pyStrip "instance-id i-0123".toList)).get? 1 =
      some "i-0123".toList) ∧
    get_current_instance_id "instance-id i-0123" = .ok "i-0123" :=
  ⟨by decide, by decide,
   (get_current_instance_id_amended "instance-id i-0123").2.1
     "i-0123".toList (by decide) (by decide)⟩
